import Mathlib

/-!
# Verification of the cancities proximity-query subsystem

Shallow embedding of the Go repository `AsT4re/canadaCitiesTest` (the
`cancities` HTTP server).  The repository snapshot contains several
revisions of the request handler:

* `src/server.go` — revision with the unknown-query-parameter check
  (`qsLen`), whose `dist=0` branch returns the raw `CityTempl` entity
  shape; embedded below as `FindHandler`.
* `src/unnamed/part_000` (second document, `package main` with
  `Init(port, dgraph)`) and `src/unnamed/part_002` (final
  `package server` revision) — revision without the `qsLen` check whose
  `dist=0` branch returns a singleton `CitiesTempl` collection; embedded
  below as `findHandlerV2`.
* `src/unnamed/part_000` lines 517-530 — the `appHandler.ServeHTTP`
  wrapper that substitutes a generic internal-error body
  for every response code `>= 500`; embedded below as `serveHTTPGeneric`.

The pure geometry (`src/boundingBox.go`) is embedded over `ℝ`
(idealizing the Go `float64` values as real arithmetic, `math.Asin/Sin/Cos` as
`Real.arcsin/sin/cos`).
-/

namespace Cancities

/-! ## Data model (src/dgclient.go, templates of src/certificates/gen.sh part 2) -/

/-- Go `cityProps` (src/dgclient.go lines 25-30): the entity stored per city.
`Geo` is the opaque WKB byte blob, modelled as a list of bytes. -/
structure CityProps where
  name : String
  population : Int
  cartodb_id : Int
  geo : List Nat
deriving DecidableEq

/-- Result of `DecodeGeoDatas` (`geom.T`): all the handler uses of it is
`FlatCoords() []float64`, modelled as a list of reals. -/
structure GeomT where
  flatCoords : List Real

/-- Go `CityTempl` (templates file, second document of
src/certificates/gen.sh lines 61-66): the single-entity reply shape. -/
structure CityTempl where
  cartodbId : Int
  name : String
  population : Int
  coordinates : List Real

/-- The JSON payload shapes the handlers can emit: `CityTempl`,
`CitiesTempl` (collection envelope with a `cities` array), `ErrorRep`
and `StatusRep`. -/
inductive JsonTempl where
  | cityT (c : CityTempl)
  | citiesT (cs : List CityTempl)
  | errorT (msg : String)
  | statusT (msg : String)

/-- Go `httpRetMsg` (src/server.go lines 106-109): status code plus
optional JSON payload (`nil` interface = `none`). -/
structure HttpRetMsg where
  code : Nat
  jsonTempl : Option JsonTempl

/-- What `appHandler.ServeHTTP` actually sends to the client: a status
code and an optional encoded JSON body. -/
structure HttpResponse where
  status : Nat
  body : Option JsonTempl

/-- The store and codec collaborators seen by the find handler:
`DGClient.GetCity`, `DGClient.GetCitiesAround` and `DecodeGeoDatas`
(src/dgclient.go).  Errors carry their internal detail string. -/
structure Env where
  getCity : String → Except String (Option CityProps)
  getCitiesAround : List Real → Nat → Except String (List CityProps)
  decodeGeo : List Nat → Except String GeomT

/-! ## Message constants (templates file; src/server.go; src/unnamed/part_000) -/

/-- A single-quote character, written by code point to keep sources exact. -/
def squote : String := String.singleton (Char.ofNat 39)

/-- Go constant `ErrUnknownQsParam` (src/certificates/gen.sh part 2, line 48). -/
def ErrUnknownQsParam : String := "Unknown query string parameters"

/-- Leading fragment of the `ErrInvalidUIntQsParam` format string
(src/certificates/gen.sh part 2, line 47). -/
def invalidValuePre : String := "Invalid uint query string value "

/-- Middle fragment of the same format string. -/
def invalidValueMid : String := " for parameter "

/-- Go `fmt.Errorf(ErrInvalidUIntQsParam, v[0], key)` assembled from the
fragments above, single-quoting the value and the parameter name
(src/certificates/gen.sh part 2, line 47). -/
def errInvalidUIntQsParamMsg (v key : String) : String :=
  invalidValuePre ++ squote ++ v ++ squote ++
    invalidValueMid ++ squote ++ key ++ squote

/-- Leading fragment of the city-not-found format string. -/
def notFoundPre : String := "City with id "

/-- Trailing fragment of the city-not-found format string. -/
def notFoundSuf : String := " not found"

/-- Go `fmt.Sprintf(ErrNotFoundId, cityId)` assembled from the fragments
above (inline at src/unnamed/part_000 line 643, and constant
`ErrNotFound` of the templates file). -/
def errNotFoundIdMsg (id : String) : String :=
  notFoundPre ++ id ++ notFoundSuf

/-- Go too-many-values message of `getUIntQsParam` (src/server.go line 264). -/
def errTooManyValuesMsg (key : String) : String :=
  "Too many values for query string parameter: " ++ key

/-- The generic error body substituted by
`appHandler.ServeHTTP` for codes >= 500 (src/unnamed/part_000 line 522). -/
def internalErrorBody : String := "Internal Error"

/-- The query-string parameter name `"dist"`. -/
def distKey : String := "dist"

/-! ## Query-string parsing -/

/-- Value of a decimal digit character (Go subtracts the zero digit). -/
def digitVal (c : Char) : Nat := c.toNat - 48

/-- Go `strconv.ParseUint(s, 10, 64)`: accepts a non-empty all-digit
string whose value fits in 64 bits, with no sign prefix; every other
input is an error (`none`). -/
def parseUint64 (s : String) : Option Nat :=
  if s.data = [] then none
  else if s.data.all Char.isDigit then
    let n := s.data.foldl (fun acc c => acc * 10 + digitVal c) 0
    if n < 2 ^ 64 then some n else none
  else none

/-- Go `getUIntQsParam` (src/server.go lines 262-272; identically in
src/unnamed/part_002 lines 319-329 up to the too-many-values format):
exactly one value, parsed as `uint64`, else a formatted error. -/
def getUIntQsParam (v : List String) (key : String) : Except String Nat :=
  match v with
  | [x] =>
    match parseUint64 x with
    | some u => .ok u
    | none => .error (errInvalidUIntQsParamMsg x key)
  | _ => .error (errTooManyValuesMsg key)

/-! ## The find handlers

The parsed query string `r.Form` (a Go `url.Values` map) is modelled as
an association list of `(key, values)` entries; `len(r.Form)` is its
length and `r.Form[k]` is `List.lookup`. -/

/-- The reply built for a found city (`retCityMsg` / `cityInfos`). -/
def cityTemplOf (c : CityProps) (g : GeomT) : CityTempl :=
  { cartodbId := c.cartodb_id, name := c.name, population := c.population,
    coordinates := g.flatCoords }

/-- Go `internalError` helper (src/unnamed/part_002 lines 313-316): log
the detail server-side, reply with status 500 and no body. -/
def internalErrorRet : HttpRetMsg := { code := 500, jsonTempl := none }

/-- The per-city decode loop of the proximity branch (src/server.go lines
228-239, src/unnamed/part_002 lines 285-296): decode every returned
geometry of every city in order, aborting on the first failure. -/
def buildCitiesArr (decodeGeo : List Nat → Except String GeomT) :
    List CityProps → Except String (List CityTempl)
  | [] => .ok []
  | c :: rest =>
    match decodeGeo c.geo with
    | .error e => .error e
    | .ok g =>
      match buildCitiesArr decodeGeo rest with
      | .error e => .error e
      | .ok tl => .ok (cityTemplOf c g :: tl)

/-- `FindHandler` of src/server.go (lines 180-253): the revision with the
`qsLen` unknown-query-parameter check, whose `dist=0` branch returns the
raw `retCityMsg` (a `CityTempl`).  Store/decode failures print the
detail server-side and return code 500 with no body. -/
def FindHandler (env : Env) (cityId : String)
    (form : List (String × List String)) : HttpRetMsg :=
  match env.getCity cityId with
  | .error _ => { code := 500, jsonTempl := none }
  | .ok none => { code := 404, jsonTempl := some (.errorT (errNotFoundIdMsg cityId)) }
  | .ok (some city) =>
    match env.decodeGeo city.geo with
    | .error _ => { code := 500, jsonTempl := none }
    | .ok geo =>
      let qsLen := form.length
      let retCityMsg : HttpRetMsg :=
        { code := 200, jsonTempl := some (.cityT (cityTemplOf city geo)) }
      if qsLen ≠ 0 then
        match form.lookup distKey with
        | none => { code := 400, jsonTempl := some (.errorT ErrUnknownQsParam) }
        | some v =>
          if 1 < qsLen then
            { code := 400, jsonTempl := some (.errorT ErrUnknownQsParam) }
          else
            match getUIntQsParam v distKey with
            | .error e => { code := 400, jsonTempl := some (.errorT e) }
            | .ok u =>
              if u = 0 then retCityMsg
              else
                match env.getCitiesAround geo.flatCoords u with
                | .error _ => { code := 500, jsonTempl := none }
                | .ok cities =>
                  match buildCitiesArr env.decodeGeo cities with
                  | .error _ => { code := 500, jsonTempl := none }
                  | .ok arr => { code := 200, jsonTempl := some (.citiesT arr) }
      else retCityMsg

/-- `FindHandler` of src/unnamed/part_000 lines 380-468, identical to
`findHandler` of the final revision src/unnamed/part_002 lines 217-305:
no `qsLen` check, and the `dist=0` branch returns a singleton
`CitiesTempl` collection.  Failures go through `internalError`. -/
def findHandlerV2 (env : Env) (cityId : String)
    (form : List (String × List String)) : HttpRetMsg :=
  match env.getCity cityId with
  | .error _ => internalErrorRet
  | .ok none => { code := 404, jsonTempl := some (.errorT (errNotFoundIdMsg cityId)) }
  | .ok (some city) =>
    match env.decodeGeo city.geo with
    | .error _ => internalErrorRet
    | .ok geo =>
      let cityInfos := cityTemplOf city geo
      match form.lookup distKey with
      | none => { code := 200, jsonTempl := some (.cityT cityInfos) }
      | some v =>
        match getUIntQsParam v distKey with
        | .error e => { code := 400, jsonTempl := some (.errorT e) }
        | .ok u =>
          if u = 0 then { code := 200, jsonTempl := some (.citiesT [cityInfos]) }
          else
            match env.getCitiesAround geo.flatCoords u with
            | .error _ => internalErrorRet
            | .ok cities =>
              match buildCitiesArr env.decodeGeo cities with
              | .error _ => internalErrorRet
              | .ok arr => { code := 200, jsonTempl := some (.citiesT arr) }

/-- `appHandler.ServeHTTP` of src/unnamed/part_000 lines 517-530: write
the status code of the handler, and substitute the generic
generic internal-error body for every code >= 500 before encoding. -/
def serveHTTPGeneric (ret : HttpRetMsg) : HttpResponse :=
  { status := ret.code,
    body :=
      if 500 ≤ ret.code then some (.errorT internalErrorBody) else ret.jsonTempl }

/-- Substring containment, used to state that a message names an input. -/
def strContains (s sub : String) : Prop := ∃ a b, s = a ++ sub ++ b

/-! ## Bounding-box geometry (src/boundingBox.go)

Go `float64` arithmetic and `math.Sin/Cos/Asin/Pi` are idealized as real
arithmetic and `Real.sin/cos/arcsin/pi`. -/

noncomputable section

open Real

/-- Go `radians` (src/boundingBox.go lines 7-9). -/
def radians (deg : ℝ) : ℝ := deg * Real.pi / 180

/-- Go `degrees` (src/boundingBox.go lines 11-13). -/
def degrees (rad : ℝ) : ℝ := rad * 180 / Real.pi

/-- Go `EARTH_RADIUS = 6371.01` (src/boundingBox.go line 16). -/
def EARTH_RADIUS : ℝ := 6371.01

/-- Go `MIN_LAT = radians(-90)` (src/boundingBox.go line 17). -/
def MIN_LAT : ℝ := radians (-90)

/-- Go `MAX_LAT = radians(90)` (src/boundingBox.go line 18). -/
def MAX_LAT : ℝ := radians 90

/-- Go `MIN_LON = radians(-180)` (src/boundingBox.go line 19). -/
def MIN_LON : ℝ := radians (-180)

/-- Go `MAX_LON = radians(180)` (src/boundingBox.go line 20). -/
def MAX_LON : ℝ := radians 180

/-- The four degree values returned by `getBoundingBox`, in the order of
the Go multiple return `(min_lat_deg, min_lon_deg, max_lat_deg,
max_lon_deg)`. -/
structure BBox where
  minLat : ℝ
  minLon : ℝ
  maxLat : ℝ
  maxLon : ℝ

/-- Go `getBoundingBox` (src/boundingBox.go lines 23-59), transcribed
branch for branch. -/
def getBoundingBox (lon lat dist : ℝ) : BBox :=
  let angular_distance := dist / EARTH_RADIUS
  let lon_rad := radians lon
  let lat_rad := radians lat
  let min_lat := lat_rad - angular_distance
  let max_lat := lat_rad + angular_distance
  if min_lat > MIN_LAT ∧ max_lat < MAX_LAT then
    let delta_lon := Real.arcsin (Real.sin angular_distance / Real.cos lat_rad)
    let min_lon0 := lon_rad - delta_lon
    let min_lon := if min_lon0 < MIN_LON then min_lon0 + 2 * Real.pi else min_lon0
    let max_lon0 := lon_rad + delta_lon
    let max_lon := if max_lon0 > MAX_LON then max_lon0 - 2 * Real.pi else max_lon0
    ⟨degrees min_lat, degrees min_lon, degrees max_lat, degrees max_lon⟩
  else
    ⟨degrees (max min_lat MIN_LAT), degrees MIN_LON,
     degrees (min max_lat MAX_LAT), degrees MAX_LON⟩

/-- The set of longitudes (in degrees) covered by a box, reading
`minLon > maxLon` as a wraparound across the antimeridian. -/
def inLonBand (b : BBox) (x : ℝ) : Prop :=
  if b.minLon ≤ b.maxLon then b.minLon ≤ x ∧ x ≤ b.maxLon
  else b.minLon ≤ x ∨ x ≤ b.maxLon

/-- The geographic region described by a bounding box: pairs
`(lon, lat)` of degree coordinates with `lon` in the longitude
band of the box and `lat` between the latitude bounds. -/
def boxRegion (b : BBox) : Set (ℝ × ℝ) :=
  {p | (-180 ≤ p.1 ∧ p.1 ≤ 180) ∧ inLonBand b p.1 ∧
       b.minLat ≤ p.2 ∧ p.2 ≤ b.maxLat}

end

/-! ## Helper lemmas (shared) -/

theorem lookup_some_mem {l : List (String × List String)} {k : String}
    {v : List String} (h : l.lookup k = some v) : (k, v) ∈ l := by
  induction l with
  | nil => simp [List.lookup] at h
  | cons hd tl ih =>
    rw [List.lookup] at h
    by_cases hk : k = hd.1
    · subst hk
      simp at h
      exact h ▸ List.mem_cons_self _ _
    · have hb : (k == hd.1) = false := beq_false_of_ne hk
      rw [hb] at h
      exact List.mem_cons_of_mem _ (ih h)

theorem one_lt_length_of_two_mem {α : Type} [DecidableEq α] {l : List α} {a b : α}
    (ha : a ∈ l) (hb : b ∈ l) (hab : a ≠ b) : 1 < l.length := by
  have hb' : b ∈ l.erase a := (List.mem_erase_of_ne (fun h => hab h.symm)).2 hb
  have h1 : 0 < (l.erase a).length := List.length_pos.2 (List.ne_nil_of_mem hb')
  have h2 : (l.erase a).length = l.length - 1 := List.length_erase_of_mem ha
  have h3 : 0 < l.length := List.length_pos.2 (List.ne_nil_of_mem ha)
  omega

/-! ## Concrete fixtures for witnesses -/

/-- A stored city (values taken from the repository tests). -/
def cityA : CityProps :=
  { name := "Amherstburg", population := 8921, cartodb_id := 42, geo := [1, 7, 7] }

/-- Its decoded point geometry. -/
def geomA : GeomT := { flatCoords := [-83, 42] }

def idFound : String := "42"

def idMissing : String := "4234534"

def zeroStr : String := "0"

def fourStr : String := "4"

def badDistStr : String := "ideij"

def extraKeyStr : String := "fko"

def sixtySevenStr : String := "67"

def detailStr : String := "error when executing request"

/-- Environment in which every id resolves to `cityA` and geometry
decoding succeeds. -/
def envFound : Env :=
  { getCity := fun _ => .ok (some cityA),
    getCitiesAround := fun _ _ => .ok [],
    decodeGeo := fun _ => .ok geomA }

/-- Environment in which no id resolves. -/
def envMissing : Env :=
  { getCity := fun _ => .ok none,
    getCitiesAround := fun _ _ => .ok [],
    decodeGeo := fun _ => .ok geomA }

/-- Environment in which the store fails with an internal detail. -/
def envStoreFail : Env :=
  { getCity := fun _ => .error detailStr,
    getCitiesAround := fun _ _ => .error detailStr,
    decodeGeo := fun _ => .ok geomA }

def formDistZero : List (String × List String) := [(distKey, [zeroStr])]

def formDistBad : List (String × List String) := [(distKey, [badDistStr])]

def formDistFour : List (String × List String) := [(distKey, [fourStr])]

def formDistExtra : List (String × List String) :=
  [(distKey, [fourStr]), (extraKeyStr, [sixtySevenStr])]

/-! ## Claim theorems: request handling -/

/-- C7: whenever the id does not resolve to a stored entity, the find
handler (in both the src/server.go revision and the final revision)
responds 404 with a formatted message containing the requested id, for
every query string whatsoever — so before and regardless of any `dist`
validation or proximity handling. -/
theorem notFound_shortCircuit (env : Env) (id : String)
    (form : List (String × List String))
    (h : env.getCity id = .ok none) :
    FindHandler env id form = ⟨404, some (.errorT (errNotFoundIdMsg id))⟩ ∧
    findHandlerV2 env id form = ⟨404, some (.errorT (errNotFoundIdMsg id))⟩ ∧
    strContains (errNotFoundIdMsg id) id := by
  refine ⟨?_, ?_, ?_⟩
  · simp only [FindHandler, h]
  · simp only [findHandlerV2, h]
  · exact ⟨notFoundPre, notFoundSuf, rfl⟩

/-- Witness for C7 at the concrete id of the repository test
`TestNotFoundIdWithDist`, with `dist=4` supplied. -/
theorem notFound_shortCircuit_witness :
    envMissing.getCity idMissing = .ok none ∧
    (FindHandler envMissing idMissing formDistFour =
        ⟨404, some (.errorT (errNotFoundIdMsg idMissing))⟩ ∧
      findHandlerV2 envMissing idMissing formDistFour =
        ⟨404, some (.errorT (errNotFoundIdMsg idMissing))⟩ ∧
      strContains (errNotFoundIdMsg idMissing) idMissing) :=
  ⟨rfl, notFound_shortCircuit envMissing idMissing formDistFour rfl⟩

/-- C8: an existing entity queried with sole parameter `dist` whose
single value does not parse as a non-negative 64-bit integer gets a 400
whose message names both the offending value and the parameter name
`dist` (both handler revisions). -/
theorem invalidDist_badRequest (env : Env) (id : String)
    (form : List (String × List String)) (c : CityProps) (g : GeomT) (s : String)
    (hget : env.getCity id = .ok (some c))
    (hdec : env.decodeGeo c.geo = .ok g)
    (hform : form = [(distKey, [s])])
    (hbad : parseUint64 s = none) :
    FindHandler env id form =
      ⟨400, some (.errorT (errInvalidUIntQsParamMsg s distKey))⟩ ∧
    findHandlerV2 env id form =
      ⟨400, some (.errorT (errInvalidUIntQsParamMsg s distKey))⟩ ∧
    strContains (errInvalidUIntQsParamMsg s distKey) s ∧
    strContains (errInvalidUIntQsParamMsg s distKey) distKey := by
  subst hform
  refine ⟨?_, ?_, ?_, ?_⟩
  · simp [FindHandler, hget, hdec, List.lookup, getUIntQsParam, hbad]
  · simp [findHandlerV2, hget, hdec, List.lookup, getUIntQsParam, hbad]
  · exact ⟨invalidValuePre ++ squote,
      squote ++ invalidValueMid ++ squote ++ distKey ++ squote,
      by simp only [errInvalidUIntQsParamMsg, String.append_assoc]⟩
  · exact ⟨invalidValuePre ++ squote ++ s ++ squote ++
        invalidValueMid ++ squote, squote,
      by simp only [errInvalidUIntQsParamMsg, String.append_assoc]⟩

/-- Witness for C8 at the concrete request `/id/42?dist=ideij` of the
repository test `TestInvalidDistParam`. -/
theorem invalidDist_badRequest_witness :
    (envFound.getCity idFound = .ok (some cityA) ∧
      envFound.decodeGeo cityA.geo = .ok geomA ∧
      parseUint64 badDistStr = none) ∧
    FindHandler envFound idFound formDistBad =
      ⟨400, some (.errorT (errInvalidUIntQsParamMsg badDistStr distKey))⟩ :=
  ⟨⟨rfl, rfl, by decide⟩,
    (invalidDist_badRequest envFound idFound formDistBad cityA geomA badDistStr
      rfl rfl rfl (by decide)).1⟩

/-- C6: on the find-by-id route of an existing entity, any query
parameter other than `dist` — whether or not a (even valid) `dist` is
also present — makes the src/server.go `FindHandler` respond 400 with
the unknown-query-parameter message. -/
theorem extraParam_badRequest (env : Env) (id : String)
    (form : List (String × List String)) (c : CityProps) (g : GeomT)
    (k : String) (vs : List String)
    (hget : env.getCity id = .ok (some c))
    (hdec : env.decodeGeo c.geo = .ok g)
    (hmem : (k, vs) ∈ form) (hk : k ≠ distKey) :
    FindHandler env id form = ⟨400, some (.errorT ErrUnknownQsParam)⟩ := by
  have hlen : form.length ≠ 0 := by
    have := List.length_pos.2 (List.ne_nil_of_mem hmem)
    omega
  simp only [FindHandler, hget, hdec]
  rw [if_pos hlen]
  cases hlook : form.lookup distKey with
  | none => rfl
  | some v =>
    have hmem2 : (distKey, v) ∈ form := lookup_some_mem hlook
    have hlt : 1 < form.length :=
      one_lt_length_of_two_mem hmem2 hmem
        (fun hh => hk (congrArg Prod.fst hh).symm)
    simp [hlt]

/-- Witness for C6 at the concrete request `/id/42?dist=4&fko=67` of the
repository test `TestUnknownQsParamMultiple` (valid `dist`, extra `fko`). -/
theorem extraParam_badRequest_witness :
    (envFound.getCity idFound = .ok (some cityA) ∧
      envFound.decodeGeo cityA.geo = .ok geomA ∧
      (extraKeyStr, [sixtySevenStr]) ∈ formDistExtra ∧ extraKeyStr ≠ distKey) ∧
    FindHandler envFound idFound formDistExtra =
      ⟨400, some (.errorT ErrUnknownQsParam)⟩ :=
  ⟨⟨rfl, rfl, by decide, by decide⟩,
    extraParam_badRequest envFound idFound formDistExtra cityA geomA
      extraKeyStr [sixtySevenStr] rfl rfl (by decide) (by decide)⟩

/-- C1: when the id resolves and the query string is exactly `dist=0`,
the final-revision find handler responds 200 with a singleton
`CitiesTempl` collection holding only the reference entity, and the
result is the same for every possible `GetCitiesAround` store oracle —
the spatial proximity query is never consulted. -/
theorem distZero_singletonCollection (env : Env) (id : String)
    (form : List (String × List String)) (c : CityProps) (g : GeomT)
    (hget : env.getCity id = .ok (some c))
    (hdec : env.decodeGeo c.geo = .ok g)
    (hform : form = [(distKey, [zeroStr])]) :
    findHandlerV2 env id form = ⟨200, some (.citiesT [cityTemplOf c g])⟩ ∧
    ∀ gca, findHandlerV2 { env with getCitiesAround := gca } id form =
      ⟨200, some (.citiesT [cityTemplOf c g])⟩ := by
  subst hform
  have hparse : getUIntQsParam [zeroStr] distKey = .ok 0 := rfl
  constructor
  · simp [findHandlerV2, hget, hdec, List.lookup, hparse]
  · intro gca
    simp [findHandlerV2, hget, hdec, List.lookup, hparse]

/-- Witness for C1 at the concrete request `/id/42?dist=0`. -/
theorem distZero_singletonCollection_witness :
    (envFound.getCity idFound = .ok (some cityA) ∧
      envFound.decodeGeo cityA.geo = .ok geomA) ∧
    findHandlerV2 envFound idFound formDistZero =
      ⟨200, some (.citiesT [cityTemplOf cityA geomA])⟩ :=
  ⟨⟨rfl, rfl⟩,
    (distZero_singletonCollection envFound idFound formDistZero cityA geomA
      rfl rfl rfl).1⟩

/-- C5: whenever a store failure or a geometry decode failure occurs
anywhere while handling a find request (initial lookup, center decode,
proximity query, or per-city decode), the response sent by the
`appHandler.ServeHTTP` wrapper is status 500 with the fixed generic
`Internal Error` body — a constant independent of the internal error
detail `e`, which is therefore never echoed to the client. -/
theorem internalFailure_opaque (env : Env) (id : String)
    (form : List (String × List String)) (e : String)
    (h : env.getCity id = .error e ∨
      (∃ c, env.getCity id = .ok (some c) ∧ env.decodeGeo c.geo = .error e) ∨
      (∃ c g vs u, env.getCity id = .ok (some c) ∧
        env.decodeGeo c.geo = .ok g ∧ form.lookup distKey = some vs ∧
        getUIntQsParam vs distKey = .ok u ∧ u ≠ 0 ∧
        env.getCitiesAround g.flatCoords u = .error e) ∨
      (∃ c g vs u cities, env.getCity id = .ok (some c) ∧
        env.decodeGeo c.geo = .ok g ∧ form.lookup distKey = some vs ∧
        getUIntQsParam vs distKey = .ok u ∧ u ≠ 0 ∧
        env.getCitiesAround g.flatCoords u = .ok cities ∧
        buildCitiesArr env.decodeGeo cities = .error e)) :
    serveHTTPGeneric (findHandlerV2 env id form) =
      ⟨500, some (.errorT internalErrorBody)⟩ := by
  rcases h with h1 | ⟨c, h1, h2⟩ | ⟨c, g, vs, u, h1, h2, h3, h4, h5, h6⟩ |
    ⟨c, g, vs, u, cities, h1, h2, h3, h4, h5, h6, h7⟩
  · simp [findHandlerV2, serveHTTPGeneric, internalErrorRet, h1]
  · simp [findHandlerV2, serveHTTPGeneric, internalErrorRet, h1, h2]
  · simp [findHandlerV2, serveHTTPGeneric, internalErrorRet, h1, h2, h3, h4, h5, h6]
  · simp [findHandlerV2, serveHTTPGeneric, internalErrorRet, h1, h2, h3, h4, h5, h6, h7]

/-- Witness for C5: a concrete store failure (the initial lookup errors
with an internal detail string), with `dist=4` supplied. -/
theorem internalFailure_opaque_witness :
    envStoreFail.getCity idFound = .error detailStr ∧
    serveHTTPGeneric (findHandlerV2 envStoreFail idFound formDistFour) =
      ⟨500, some (.errorT internalErrorBody)⟩ :=
  ⟨rfl, internalFailure_opaque envStoreFail idFound formDistFour detailStr
    (Or.inl rfl)⟩

/-! ## Geometry helper lemmas -/

theorem EARTH_RADIUS_pos : (0 : ℝ) < EARTH_RADIUS := by
  unfold EARTH_RADIUS; norm_num

theorem MIN_LAT_eq : MIN_LAT = -(Real.pi / 2) := by
  unfold MIN_LAT radians; ring

theorem MAX_LAT_eq : MAX_LAT = Real.pi / 2 := by
  unfold MAX_LAT radians; ring

theorem MIN_LON_eq : MIN_LON = -Real.pi := by
  unfold MIN_LON radians; ring

theorem MAX_LON_eq : MAX_LON = Real.pi := by
  unfold MAX_LON radians; ring

theorem degrees_le_degrees_iff {x y : ℝ} : degrees x ≤ degrees y ↔ x ≤ y := by
  unfold degrees
  rw [div_le_div_iff_of_pos_right Real.pi_pos,
    mul_le_mul_right (by norm_num : (0:ℝ) < 180)]

theorem radians_le_radians_iff {x y : ℝ} : radians x ≤ radians y ↔ x ≤ y := by
  unfold radians
  rw [div_le_div_iff_of_pos_right (by norm_num : (0:ℝ) < 180),
    mul_le_mul_right Real.pi_pos]

theorem degrees_radians (x : ℝ) : degrees (radians x) = x := by
  unfold degrees radians
  field_simp

theorem radians_degrees (x : ℝ) : radians (degrees x) = x := by
  unfold degrees radians
  field_simp

theorem degrees_le_iff {u x : ℝ} : degrees u ≤ x ↔ u ≤ radians x := by
  rw [← radians_le_radians_iff, radians_degrees]

theorem le_degrees_iff {x v : ℝ} : x ≤ degrees v ↔ radians x ≤ v := by
  rw [← radians_le_radians_iff, radians_degrees]

theorem degrees_pi : degrees Real.pi = 180 := by
  unfold degrees; field_simp

theorem degrees_neg_pi : degrees (-Real.pi) = -180 := by
  unfold degrees; field_simp; ring

theorem degrees_pi_div_two : degrees (Real.pi / 2) = 90 := by
  unfold degrees; field_simp; ring

theorem degrees_neg_pi_div_two : degrees (-(Real.pi / 2)) = -90 := by
  unfold degrees; field_simp; ring

theorem radians_mem_of_lat {lat : ℝ} (h1 : -90 ≤ lat) (h2 : lat ≤ 90) :
    -(Real.pi / 2) ≤ radians lat ∧ radians lat ≤ Real.pi / 2 := by
  constructor
  · have := radians_le_radians_iff.2 h1
    rwa [show radians (-90) = -(Real.pi / 2) by unfold radians; ring] at this
  · have := radians_le_radians_iff.2 h2
    rwa [show radians 90 = Real.pi / 2 by unfold radians; ring] at this

theorem radians_mem_of_lon {lon : ℝ} (h1 : -180 ≤ lon) (h2 : lon ≤ 180) :
    -Real.pi ≤ radians lon ∧ radians lon ≤ Real.pi := by
  constructor
  · have := radians_le_radians_iff.2 h1
    rwa [show radians (-180) = -Real.pi by unfold radians; ring] at this
  · have := radians_le_radians_iff.2 h2
    rwa [show radians 180 = Real.pi by unfold radians; ring] at this

noncomputable section

/-- The antimeridian wraparound correction applied to `min_lon`
(src/boundingBox.go lines 37-40). -/
def wrapMin (m : ℝ) : ℝ := if m < -Real.pi then m + 2 * Real.pi else m

/-- The antimeridian wraparound correction applied to `max_lon`
(src/boundingBox.go lines 42-45). -/
def wrapMax (m : ℝ) : ℝ := if m > Real.pi then m - 2 * Real.pi else m

/-- The longitude band of a box, expressed in radians. -/
def lonBandPred (m M y : ℝ) : Prop :=
  if m ≤ M then m ≤ y ∧ y ≤ M else m ≤ y ∨ y ≤ M

end

theorem getBoundingBox_nonpole (lon lat dist : ℝ)
    (h : MIN_LAT < radians lat - dist / EARTH_RADIUS ∧
         radians lat + dist / EARTH_RADIUS < MAX_LAT) :
    getBoundingBox lon lat dist =
      ⟨degrees (radians lat - dist / EARTH_RADIUS),
       degrees (wrapMin (radians lon -
         Real.arcsin (Real.sin (dist / EARTH_RADIUS) / Real.cos (radians lat)))),
       degrees (radians lat + dist / EARTH_RADIUS),
       degrees (wrapMax (radians lon +
         Real.arcsin (Real.sin (dist / EARTH_RADIUS) / Real.cos (radians lat))))⟩ := by
  simp only [getBoundingBox]
  rw [if_pos h]
  unfold wrapMin wrapMax
  rw [MIN_LON_eq, MAX_LON_eq]

theorem getBoundingBox_pole (lon lat dist : ℝ)
    (h : ¬(MIN_LAT < radians lat - dist / EARTH_RADIUS ∧
           radians lat + dist / EARTH_RADIUS < MAX_LAT)) :
    getBoundingBox lon lat dist =
      ⟨degrees (max (radians lat - dist / EARTH_RADIUS) (-(Real.pi / 2))), -180,
       degrees (min (radians lat + dist / EARTH_RADIUS) (Real.pi / 2)), 180⟩ := by
  simp only [getBoundingBox]
  rw [if_neg h, MIN_LAT_eq, MAX_LAT_eq, MIN_LON_eq, MAX_LON_eq, degrees_neg_pi,
    degrees_pi]

/-- Core trigonometric facts available inside the non-pole branch:
the angular distance lies in `[0, π/2)`, the cosine of the latitude is
positive, and `sin a` is strictly below `cos lat_rad`. -/
theorem nonpole_branch_facts {lat dist : ℝ} (hd : 0 ≤ dist)
    (h1 : -(Real.pi / 2) < radians lat - dist / EARTH_RADIUS)
    (h2 : radians lat + dist / EARTH_RADIUS < Real.pi / 2) :
    0 ≤ dist / EARTH_RADIUS ∧ dist / EARTH_RADIUS < Real.pi / 2 ∧
    0 < Real.cos (radians lat) ∧ 0 ≤ Real.sin (dist / EARTH_RADIUS) ∧
    Real.sin (dist / EARTH_RADIUS) < Real.cos (radians lat) := by
  have ha : 0 ≤ dist / EARTH_RADIUS := div_nonneg hd EARTH_RADIUS_pos.le
  have hcos : 0 < Real.cos (radians lat) :=
    Real.cos_pos_of_mem_Ioo ⟨by linarith, by linarith⟩
  have hl : |radians lat| < Real.pi / 2 - dist / EARTH_RADIUS :=
    abs_lt.2 ⟨by linarith, by linarith⟩
  have hapi : dist / EARTH_RADIUS < Real.pi / 2 := by
    have := abs_nonneg (radians lat); linarith
  have hsin : 0 ≤ Real.sin (dist / EARTH_RADIUS) :=
    Real.sin_nonneg_of_nonneg_of_le_pi ha (by linarith [Real.pi_pos])
  refine ⟨ha, hapi, hcos, hsin, ?_⟩
  have hmono : Real.sin (dist / EARTH_RADIUS) <
      Real.sin (Real.pi / 2 - |radians lat|) := by
    apply Real.strictMonoOn_sin
      ⟨by linarith [Real.pi_pos], by linarith [abs_nonneg (radians lat)]⟩
      ⟨by linarith [Real.pi_pos, abs_nonneg (radians lat)],
       by linarith [abs_nonneg (radians lat)]⟩
      (by linarith)
  rwa [Real.sin_pi_div_two_sub, Real.cos_abs] at hmono

/-- C10: in the non-pole branch of `getBoundingBox` (with `dist ≥ 0` and
`|lat| ≤ 90`), the argument `sin(a)/cos(lat_rad)` handed to `math.Asin`
lies in `[0, 1]`; on `[-1, 1]` the arcsine is the genuine inverse of the
sine, so the computed `delta_lon` (hence the longitude bounds) is a
well-defined real number and no NaN is produced. -/
theorem nonpole_asin_arg_in_unit (lat dist : ℝ) (hd : 0 ≤ dist)
    (hlat : -90 ≤ lat ∧ lat ≤ 90)
    (h1 : -(Real.pi / 2) < radians lat - dist / EARTH_RADIUS)
    (h2 : radians lat + dist / EARTH_RADIUS < Real.pi / 2) :
    0 ≤ Real.sin (dist / EARTH_RADIUS) / Real.cos (radians lat) ∧
    Real.sin (dist / EARTH_RADIUS) / Real.cos (radians lat) ≤ 1 := by
  obtain ⟨ha, hapi, hcos, hsin, hlt⟩ := nonpole_branch_facts hd h1 h2
  exact ⟨div_nonneg hsin hcos.le, (div_le_one hcos).2 hlt.le⟩

/-- Witness for C10 at the center `(0, 0)` with radius `0`. -/
theorem nonpole_asin_arg_in_unit_witness :
    (0 ≤ (0:ℝ) ∧ ((-90:ℝ) ≤ 0 ∧ (0:ℝ) ≤ 90) ∧
      -(Real.pi / 2) < radians 0 - 0 / EARTH_RADIUS ∧
      radians 0 + 0 / EARTH_RADIUS < Real.pi / 2) ∧
    (0 ≤ Real.sin ((0:ℝ) / EARTH_RADIUS) / Real.cos (radians 0) ∧
      Real.sin ((0:ℝ) / EARTH_RADIUS) / Real.cos (radians 0) ≤ 1) := by
  have hz : radians 0 = 0 := by unfold radians; ring
  have h1 : -(Real.pi / 2) < radians 0 - (0:ℝ) / EARTH_RADIUS := by
    rw [hz]; simp; positivity
  have h2 : radians 0 + (0:ℝ) / EARTH_RADIUS < Real.pi / 2 := by
    rw [hz]; simp; positivity
  exact ⟨⟨le_rfl, ⟨by norm_num, by norm_num⟩, h1, h2⟩,
    nonpole_asin_arg_in_unit 0 0 le_rfl ⟨by norm_num, by norm_num⟩ h1 h2⟩

/-- C2: in the non-pole branch, `getBoundingBox` computes
`deltaLon = asin(sin(a)/cos(lat_rad))` with `a = dist/6371.01`, sets
`minLon = lon_rad − deltaLon` adding `2π` when the result is below `−π`,
sets `maxLon = lon_rad + deltaLon` subtracting `2π` when the result
exceeds `π`, and converts all four bounds back to degrees. -/
theorem getBoundingBox_nonpole_formula (lon lat dist : ℝ)
    (hlon : -180 ≤ lon ∧ lon ≤ 180) (hlat : -90 ≤ lat ∧ lat ≤ 90)
    (hd : 0 ≤ dist)
    (h1 : -(Real.pi / 2) < radians lat - dist / EARTH_RADIUS)
    (h2 : radians lat + dist / EARTH_RADIUS < Real.pi / 2) :
    getBoundingBox lon lat dist =
      ⟨degrees (radians lat - dist / EARTH_RADIUS),
       degrees (if radians lon -
           Real.arcsin (Real.sin (dist / EARTH_RADIUS) / Real.cos (radians lat)) <
             -Real.pi
         then radians lon -
           Real.arcsin (Real.sin (dist / EARTH_RADIUS) / Real.cos (radians lat)) +
             2 * Real.pi
         else radians lon -
           Real.arcsin (Real.sin (dist / EARTH_RADIUS) / Real.cos (radians lat))),
       degrees (radians lat + dist / EARTH_RADIUS),
       degrees (if radians lon +
           Real.arcsin (Real.sin (dist / EARTH_RADIUS) / Real.cos (radians lat)) >
             Real.pi
         then radians lon +
           Real.arcsin (Real.sin (dist / EARTH_RADIUS) / Real.cos (radians lat)) -
             2 * Real.pi
         else radians lon +
           Real.arcsin (Real.sin (dist / EARTH_RADIUS) / Real.cos (radians lat)))⟩ := by
  rw [getBoundingBox_nonpole lon lat dist
    ⟨by rw [MIN_LAT_eq]; exact h1, by rw [MAX_LAT_eq]; exact h2⟩]
  rfl

/-- Witness for C2 at the center `(0, 0)` with radius `0`. -/
theorem getBoundingBox_nonpole_formula_witness :
    (((-180:ℝ) ≤ 0 ∧ (0:ℝ) ≤ 180) ∧ ((-90:ℝ) ≤ 0 ∧ (0:ℝ) ≤ 90) ∧ (0:ℝ) ≤ 0 ∧
      -(Real.pi / 2) < radians 0 - 0 / EARTH_RADIUS ∧
      radians 0 + 0 / EARTH_RADIUS < Real.pi / 2) ∧
    getBoundingBox 0 0 0 =
      ⟨degrees (radians 0 - 0 / EARTH_RADIUS),
       degrees (if radians 0 -
           Real.arcsin (Real.sin ((0:ℝ) / EARTH_RADIUS) / Real.cos (radians 0)) <
             -Real.pi
         then radians 0 -
           Real.arcsin (Real.sin ((0:ℝ) / EARTH_RADIUS) / Real.cos (radians 0)) +
             2 * Real.pi
         else radians 0 -
           Real.arcsin (Real.sin ((0:ℝ) / EARTH_RADIUS) / Real.cos (radians 0))),
       degrees (radians 0 + 0 / EARTH_RADIUS),
       degrees (if radians 0 +
           Real.arcsin (Real.sin ((0:ℝ) / EARTH_RADIUS) / Real.cos (radians 0)) >
             Real.pi
         then radians 0 +
           Real.arcsin (Real.sin ((0:ℝ) / EARTH_RADIUS) / Real.cos (radians 0)) -
             2 * Real.pi
         else radians 0 +
           Real.arcsin (Real.sin ((0:ℝ) / EARTH_RADIUS) / Real.cos (radians 0)))⟩ := by
  have hz : radians 0 = 0 := by unfold radians; ring
  have h1 : -(Real.pi / 2) < radians 0 - (0:ℝ) / EARTH_RADIUS := by
    rw [hz]; simp; positivity
  have h2 : radians 0 + (0:ℝ) / EARTH_RADIUS < Real.pi / 2 := by
    rw [hz]; simp; positivity
  exact ⟨⟨⟨by norm_num, by norm_num⟩, ⟨by norm_num, by norm_num⟩, le_rfl, h1, h2⟩,
    getBoundingBox_nonpole_formula 0 0 0 ⟨by norm_num, by norm_num⟩
      ⟨by norm_num, by norm_num⟩ le_rfl h1 h2⟩

/-- C3: when the query circle reaches a pole (one latitude bound leaves
the open interval `(−π/2, π/2)`), `getBoundingBox` clamps the latitude
bounds to the polar limits and returns the full longitude band
`minLon = −180`, `maxLon = 180`. -/
theorem getBoundingBox_pole_formula (lon lat dist : ℝ) (hd : 0 ≤ dist)
    (h : radians lat - dist / EARTH_RADIUS ≤ -(Real.pi / 2) ∨
         Real.pi / 2 ≤ radians lat + dist / EARTH_RADIUS) :
    getBoundingBox lon lat dist =
      ⟨degrees (max (radians lat - dist / EARTH_RADIUS) (-(Real.pi / 2))), -180,
       degrees (min (radians lat + dist / EARTH_RADIUS) (Real.pi / 2)), 180⟩ := by
  apply getBoundingBox_pole
  rw [MIN_LAT_eq, MAX_LAT_eq]
  rintro ⟨hA, hB⟩
  rcases h with h | h
  · exact absurd hA (not_lt.2 h)
  · exact absurd hB (not_lt.2 h)

/-- Witness for C3 at the north pole: center `(0, 90)`, radius `1`. -/
theorem getBoundingBox_pole_formula_witness :
    ((0:ℝ) ≤ 1 ∧ Real.pi / 2 ≤ radians 90 + 1 / EARTH_RADIUS) ∧
    getBoundingBox 0 90 1 =
      ⟨degrees (max (radians 90 - 1 / EARTH_RADIUS) (-(Real.pi / 2))), -180,
       degrees (min (radians 90 + 1 / EARTH_RADIUS) (Real.pi / 2)), 180⟩ := by
  have h90 : radians 90 = Real.pi / 2 := by unfold radians; ring
  have h : Real.pi / 2 ≤ radians 90 + (1:ℝ) / EARTH_RADIUS := by
    rw [h90]
    have : (0:ℝ) ≤ 1 / EARTH_RADIUS :=
      div_nonneg (by norm_num) EARTH_RADIUS_pos.le
    linarith
  exact ⟨⟨by norm_num, h⟩,
    getBoundingBox_pole_formula 0 90 1 (by norm_num) (Or.inr h)⟩

theorem neg180_le_degrees_iff {x : ℝ} : -180 ≤ degrees x ↔ -Real.pi ≤ x := by
  rw [← degrees_neg_pi, degrees_le_degrees_iff]

theorem degrees_le_180_iff {x : ℝ} : degrees x ≤ 180 ↔ x ≤ Real.pi := by
  rw [← degrees_pi, degrees_le_degrees_iff]

theorem neg90_le_degrees_iff {x : ℝ} : -90 ≤ degrees x ↔ -(Real.pi / 2) ≤ x := by
  rw [← degrees_neg_pi_div_two, degrees_le_degrees_iff]

theorem degrees_le_90_iff {x : ℝ} : degrees x ≤ 90 ↔ x ≤ Real.pi / 2 := by
  rw [← degrees_pi_div_two, degrees_le_degrees_iff]

/-- C9: for any admissible center and non-negative radius, all four
degree values returned by `getBoundingBox` satisfy the coordinate
invariant — longitudes in `[−180, 180]`, latitudes in `[−90, 90]` —
after the wraparound and polar-clamping corrections. -/
theorem getBoundingBox_coordinate_invariant (lon lat dist : ℝ)
    (hlon : -180 ≤ lon ∧ lon ≤ 180) (hlat : -90 ≤ lat ∧ lat ≤ 90)
    (hd : 0 ≤ dist) :
    (-180 ≤ (getBoundingBox lon lat dist).minLon ∧
      (getBoundingBox lon lat dist).minLon ≤ 180) ∧
    (-180 ≤ (getBoundingBox lon lat dist).maxLon ∧
      (getBoundingBox lon lat dist).maxLon ≤ 180) ∧
    (-90 ≤ (getBoundingBox lon lat dist).minLat ∧
      (getBoundingBox lon lat dist).minLat ≤ 90) ∧
    (-90 ≤ (getBoundingBox lon lat dist).maxLat ∧
      (getBoundingBox lon lat dist).maxLat ≤ 90) := by
  obtain ⟨hL1, hL2⟩ := radians_mem_of_lon hlon.1 hlon.2
  obtain ⟨hl1, hl2⟩ := radians_mem_of_lat hlat.1 hlat.2
  have ha : 0 ≤ dist / EARTH_RADIUS := div_nonneg hd EARTH_RADIUS_pos.le
  by_cases hb : MIN_LAT < radians lat - dist / EARTH_RADIUS ∧
      radians lat + dist / EARTH_RADIUS < MAX_LAT
  · have h1 : -(Real.pi / 2) < radians lat - dist / EARTH_RADIUS :=
      MIN_LAT_eq ▸ hb.1
    have h2 : radians lat + dist / EARTH_RADIUS < Real.pi / 2 :=
      MAX_LAT_eq ▸ hb.2
    obtain ⟨-, -, hcos, hsin, hlt⟩ := nonpole_branch_facts hd h1 h2
    have hdl0 : 0 ≤ Real.arcsin
        (Real.sin (dist / EARTH_RADIUS) / Real.cos (radians lat)) :=
      Real.arcsin_nonneg.2 (div_nonneg hsin hcos.le)
    have hdl2 : Real.arcsin
        (Real.sin (dist / EARTH_RADIUS) / Real.cos (radians lat)) ≤
          Real.pi / 2 :=
      Real.arcsin_le_pi_div_two _
    rw [getBoundingBox_nonpole lon lat dist hb]
    dsimp only
    refine ⟨?_, ?_, ?_, ?_⟩
    · rw [neg180_le_degrees_iff, degrees_le_180_iff]
      unfold wrapMin
      split_ifs with hw
      · constructor <;> linarith [Real.pi_pos]
      · constructor <;> linarith
    · rw [neg180_le_degrees_iff, degrees_le_180_iff]
      unfold wrapMax
      split_ifs with hw
      · constructor <;> linarith [Real.pi_pos]
      · constructor <;> linarith
    · rw [neg90_le_degrees_iff, degrees_le_90_iff]
      constructor <;> linarith
    · rw [neg90_le_degrees_iff, degrees_le_90_iff]
      constructor <;> linarith
  · rw [getBoundingBox_pole lon lat dist hb]
    dsimp only
    refine ⟨⟨by norm_num, by norm_num⟩, ⟨by norm_num, by norm_num⟩, ?_, ?_⟩
    · rw [neg90_le_degrees_iff, degrees_le_90_iff]
      exact ⟨le_max_right _ _,
        max_le (by linarith) (by linarith [Real.pi_pos])⟩
    · rw [neg90_le_degrees_iff, degrees_le_90_iff]
      exact ⟨le_min (by linarith) (by linarith [Real.pi_pos]) |>.trans
        (min_le_min le_rfl le_rfl), min_le_right _ _⟩

theorem inLonBand_degrees {A B m M x : ℝ} :
    inLonBand ⟨A, degrees m, B, degrees M⟩ x ↔ lonBandPred m M (radians x) := by
  unfold inLonBand lonBandPred
  dsimp only
  by_cases h : m ≤ M
  · rw [if_pos (degrees_le_degrees_iff.2 h), if_pos h, degrees_le_iff,
      le_degrees_iff]
  · rw [if_neg (fun hh => h (degrees_le_degrees_iff.1 hh)), if_neg h,
      degrees_le_iff, le_degrees_iff]

theorem sin_mono_on_quarter {x y : ℝ} (hx : 0 ≤ x) (hxy : x ≤ y)
    (hy : y ≤ Real.pi / 2) : Real.sin x ≤ Real.sin y := by
  rcases eq_or_lt_of_le hxy with h | h
  · exact h ▸ le_rfl
  · exact le_of_lt (Real.strictMonoOn_sin ⟨by linarith [Real.pi_pos], by linarith⟩
      ⟨by linarith [Real.pi_pos], hy⟩ h)

/-- Growing the longitude half-width `d1 ≤ d2` (both in `[0, π/2]`)
grows the wrapped longitude band, at any center longitude `L`. -/
theorem lonBandPred_wrap_mono {L d1 d2 y : ℝ}
    (hd1 : 0 ≤ d1) (hdd : d1 ≤ d2) (hd2 : d2 ≤ Real.pi / 2)
    (h : lonBandPred (wrapMin (L - d1)) (wrapMax (L + d1)) y) :
    lonBandPred (wrapMin (L - d2)) (wrapMax (L + d2)) y := by
  have hpi := Real.pi_pos
  unfold wrapMin wrapMax lonBandPred at h ⊢
  by_cases c3 : L - d2 < -Real.pi
  · have c4 : ¬(L + d2 > Real.pi) := by push_neg; linarith
    rw [if_pos c3, if_neg c4, if_neg (by push_neg; linarith)]
    by_cases c1 : L - d1 < -Real.pi
    · have c2 : ¬(L + d1 > Real.pi) := by push_neg; linarith
      rw [if_pos c1, if_neg c2, if_neg (by push_neg; linarith)] at h
      rcases h with h | h
      · exact Or.inl (by linarith)
      · exact Or.inr (by linarith)
    · have c2 : ¬(L + d1 > Real.pi) := by push_neg; linarith
      rw [if_neg c1, if_neg c2, if_pos (by linarith)] at h
      exact Or.inr (by linarith [h.2])
  · by_cases c4 : L + d2 > Real.pi
    · have c1 : ¬(L - d1 < -Real.pi) := by push_neg; linarith
      rw [if_neg c3, if_pos c4, if_neg (by push_neg; linarith)]
      by_cases c2 : L + d1 > Real.pi
      · rw [if_neg c1, if_pos c2, if_neg (by push_neg; linarith)] at h
        rcases h with h | h
        · exact Or.inl (by linarith)
        · exact Or.inr (by linarith)
      · rw [if_neg c1, if_neg c2, if_pos (by linarith)] at h
        exact Or.inl (by linarith [h.1])
    · have c1 : ¬(L - d1 < -Real.pi) := by push_neg; linarith
      have c2 : ¬(L + d1 > Real.pi) := by push_neg; linarith
      rw [if_neg c3, if_neg c4, if_pos (by linarith)]
      rw [if_neg c1, if_neg c2, if_pos (by linarith)] at h
      exact ⟨by linarith [h.1], by linarith [h.2]⟩

/-- C4: at a fixed admissible center, for radii `0 ≤ r1 < r2`, the
geographic region described by the bounding box computed for `r2`
contains the region described by the box computed for `r1`. -/
theorem boxRegion_radius_mono (lon lat r1 r2 : ℝ)
    (hlon : -180 ≤ lon ∧ lon ≤ 180) (hlat : -90 ≤ lat ∧ lat ≤ 90)
    (h0 : 0 ≤ r1) (h12 : r1 < r2) :
    boxRegion (getBoundingBox lon lat r1) ⊆
      boxRegion (getBoundingBox lon lat r2) := by
  have hpi := Real.pi_pos
  have haa : r1 / EARTH_RADIUS ≤ r2 / EARTH_RADIUS :=
    (div_le_div_iff_of_pos_right EARTH_RADIUS_pos).2 h12.le
  obtain ⟨hl1, hl2⟩ := radians_mem_of_lat hlat.1 hlat.2
  obtain ⟨hL1, hL2⟩ := radians_mem_of_lon hlon.1 hlon.2
  by_cases hb2 : MIN_LAT < radians lat - r2 / EARTH_RADIUS ∧
      radians lat + r2 / EARTH_RADIUS < MAX_LAT
  · have hb1 : MIN_LAT < radians lat - r1 / EARTH_RADIUS ∧
        radians lat + r1 / EARTH_RADIUS < MAX_LAT :=
      ⟨lt_of_lt_of_le hb2.1 (by linarith), lt_of_le_of_lt (by linarith) hb2.2⟩
    have h1a : -(Real.pi / 2) < radians lat - r1 / EARTH_RADIUS :=
      MIN_LAT_eq ▸ hb1.1
    have h2a : radians lat + r1 / EARTH_RADIUS < Real.pi / 2 :=
      MAX_LAT_eq ▸ hb1.2
    have h1b : -(Real.pi / 2) < radians lat - r2 / EARTH_RADIUS :=
      MIN_LAT_eq ▸ hb2.1
    have h2b : radians lat + r2 / EARTH_RADIUS < Real.pi / 2 :=
      MAX_LAT_eq ▸ hb2.2
    obtain ⟨ha1, -, hcos, hsin1, hlt1⟩ := nonpole_branch_facts h0 h1a h2a
    obtain ⟨-, ha2pi, -, hsin2, hlt2⟩ :=
      nonpole_branch_facts (by linarith) h1b h2b
    have hA12 : Real.sin (r1 / EARTH_RADIUS) / Real.cos (radians lat) ≤
        Real.sin (r2 / EARTH_RADIUS) / Real.cos (radians lat) :=
      (div_le_div_iff_of_pos_right hcos).2
        (sin_mono_on_quarter ha1 haa ha2pi.le)
    have hdl1 : 0 ≤ Real.arcsin
        (Real.sin (r1 / EARTH_RADIUS) / Real.cos (radians lat)) :=
      Real.arcsin_nonneg.2 (div_nonneg hsin1 hcos.le)
    have hdl12 : Real.arcsin
          (Real.sin (r1 / EARTH_RADIUS) / Real.cos (radians lat)) ≤
        Real.arcsin
          (Real.sin (r2 / EARTH_RADIUS) / Real.cos (radians lat)) :=
      Real.monotone_arcsin hA12
    have hdl2 : Real.arcsin
        (Real.sin (r2 / EARTH_RADIUS) / Real.cos (radians lat)) ≤
          Real.pi / 2 :=
      Real.arcsin_le_pi_div_two _
    rw [getBoundingBox_nonpole lon lat r1 hb1,
      getBoundingBox_nonpole lon lat r2 hb2]
    intro p hp
    simp only [boxRegion, Set.mem_setOf_eq] at hp ⊢
    obtain ⟨hpg, hband, hlo, hhi⟩ := hp
    refine ⟨hpg, ?_, ?_, ?_⟩
    · exact inLonBand_degrees.2
        (lonBandPred_wrap_mono hdl1 hdl12 hdl2 (inLonBand_degrees.1 hband))
    · rw [degrees_le_iff] at hlo ⊢
      linarith
    · rw [le_degrees_iff] at hhi ⊢
      linarith
  · rw [getBoundingBox_pole lon lat r2 hb2]
    intro p hp
    by_cases hb1 : MIN_LAT < radians lat - r1 / EARTH_RADIUS ∧
        radians lat + r1 / EARTH_RADIUS < MAX_LAT
    · have h1a : -(Real.pi / 2) < radians lat - r1 / EARTH_RADIUS :=
        MIN_LAT_eq ▸ hb1.1
      have h2a : radians lat + r1 / EARTH_RADIUS < Real.pi / 2 :=
        MAX_LAT_eq ▸ hb1.2
      rw [getBoundingBox_nonpole lon lat r1 hb1] at hp
      simp only [boxRegion, Set.mem_setOf_eq] at hp ⊢
      obtain ⟨hpg, hband, hlo, hhi⟩ := hp
      rw [degrees_le_iff] at hlo
      rw [le_degrees_iff] at hhi
      refine ⟨hpg, ?_, ?_, ?_⟩
      · unfold inLonBand
        dsimp only
        rw [if_pos (by norm_num : (-180:ℝ) ≤ 180)]
        exact ⟨hpg.1, hpg.2⟩
      · rw [degrees_le_iff]
        exact max_le (by linarith) (by linarith)
      · rw [le_degrees_iff]
        exact le_min (by linarith) (by linarith)
    · rw [getBoundingBox_pole lon lat r1 hb1] at hp
      simp only [boxRegion, Set.mem_setOf_eq] at hp ⊢
      obtain ⟨hpg, hband, hlo, hhi⟩ := hp
      rw [degrees_le_iff] at hlo
      rw [le_degrees_iff] at hhi
      have hmax : max (radians lat - r1 / EARTH_RADIUS) (-(Real.pi / 2)) ≤
          radians p.2 := hlo
      have hmin : radians p.2 ≤
          min (radians lat + r1 / EARTH_RADIUS) (Real.pi / 2) := hhi
      refine ⟨hpg, ?_, ?_, ?_⟩
      · unfold inLonBand
        dsimp only
        rw [if_pos (by norm_num : (-180:ℝ) ≤ 180)]
        exact ⟨hpg.1, hpg.2⟩
      · rw [degrees_le_iff]
        refine max_le ?_ ?_
        · have := le_trans (le_max_left _ _) hmax
          linarith
        · exact le_trans (le_max_right _ _) hmax
      · rw [le_degrees_iff]
        refine le_min ?_ ?_
        · have := le_trans hmin (min_le_left _ _)
          linarith
        · exact le_trans hmin (min_le_right _ _)

/-- Witness for C4 at the center `(0, 0)` with radii `0 < 1`. -/
theorem boxRegion_radius_mono_witness :
    (((-180:ℝ) ≤ 0 ∧ (0:ℝ) ≤ 180) ∧ ((-90:ℝ) ≤ 0 ∧ (0:ℝ) ≤ 90) ∧
      (0:ℝ) ≤ 0 ∧ (0:ℝ) < 1) ∧
    boxRegion (getBoundingBox 0 0 0) ⊆ boxRegion (getBoundingBox 0 0 1) :=
  ⟨⟨⟨by norm_num, by norm_num⟩, ⟨by norm_num, by norm_num⟩, le_rfl, by norm_num⟩,
    boxRegion_radius_mono 0 0 0 1 ⟨by norm_num, by norm_num⟩
      ⟨by norm_num, by norm_num⟩ le_rfl (by norm_num)⟩

/-- Witness for C9 at the center `(0, 0)` with radius `0`. -/
theorem getBoundingBox_coordinate_invariant_witness :
    (((-180:ℝ) ≤ 0 ∧ (0:ℝ) ≤ 180) ∧ ((-90:ℝ) ≤ 0 ∧ (0:ℝ) ≤ 90) ∧ (0:ℝ) ≤ 0) ∧
    ((-180 ≤ (getBoundingBox 0 0 0).minLon ∧
      (getBoundingBox 0 0 0).minLon ≤ 180) ∧
    (-180 ≤ (getBoundingBox 0 0 0).maxLon ∧
      (getBoundingBox 0 0 0).maxLon ≤ 180) ∧
    (-90 ≤ (getBoundingBox 0 0 0).minLat ∧
      (getBoundingBox 0 0 0).minLat ≤ 90) ∧
    (-90 ≤ (getBoundingBox 0 0 0).maxLat ∧
      (getBoundingBox 0 0 0).maxLat ≤ 90)) :=
  ⟨⟨⟨by norm_num, by norm_num⟩, ⟨by norm_num, by norm_num⟩, le_rfl⟩,
    getBoundingBox_coordinate_invariant 0 0 0 ⟨by norm_num, by norm_num⟩
      ⟨by norm_num, by norm_num⟩ le_rfl⟩

end Cancities
